import Mathlib

/-!
Verification development for the ai-code-reviewer repository.

The file gives a shallow embedding, in Lean, of the request-processing core of
the application: the review and generate API route handlers
(`src/app/api/review/route.ts`, `src/app/api/generate/route.ts`), the zod
issue rendering used for error details, the schema-mismatch message of
`geminiJsonRequest` (`src/lib/llm.ts`), the retry/timeout/cancellation
behaviour of the provider pipeline (modelled from the specification where the
current `llm.ts` revision is not part of the snapshot), and
`replaceStoredThreads` of `src/lib/thread-store.ts`.

JavaScript string primitives (trim, toLowerCase, endsWith, the global
`\r\n` replacement and the `\n` split) are embedded as executable functions
over the character list of a string, mirroring their JavaScript semantics on
the inputs the code feeds them.
-/

/- ===================== JavaScript string primitives ===================== -/

/-- Characters removed by `String.prototype.trim` that occur in practice
(space, tab, line feed, carriage return, vertical tab, form feed). -/
def jsIsTrimWhitespace (c : Char) : Bool :=
  c = ' ' ∨ c = '\t' ∨ c = '\n' ∨ c = '\x0d' ∨ c = '\x0b' ∨ c = '\x0c'

/-- JavaScript `s.trim()`: drop leading and trailing whitespace. -/
def jsTrim (s : String) : String :=
  String.mk (((s.data.dropWhile jsIsTrimWhitespace).reverse.dropWhile
    jsIsTrimWhitespace).reverse)

/-- JavaScript `s.toLowerCase()` on the ASCII inputs the code compares. -/
def jsToLower (s : String) : String :=
  String.mk (s.data.map Char.toLower)

/-- JavaScript `s.endsWith(suffix)`. -/
def jsEndsWith (s suffix : String) : Bool :=
  let d := s.data
  let p := suffix.data
  if p.length ≤ d.length then d.drop (d.length - p.length) == p else false

/-- JavaScript `code.replace(/\r\n/g, "\n")`: replace every (non-overlapping,
left to right) carriage-return + line-feed pair by a line feed. -/
def replaceCrlf : List Char → List Char
  | [] => []
  | '\x0d' :: '\n' :: rest => '\n' :: replaceCrlf rest
  | c :: rest => c :: replaceCrlf rest

/-- JavaScript `s.split("\n")`: the list of line-feed-delimited segments.
An empty input gives one empty segment, exactly as in JavaScript. -/
def splitNewline : List Char → List (List Char)
  | [] => [[]]
  | '\n' :: rest => [] :: splitNewline rest
  | c :: rest =>
    match splitNewline rest with
    | [] => [[c]]
    | seg :: segs => (c :: seg) :: segs

/-- JavaScript string truthiness fallback `a || b` (the empty string is the
only falsy string). -/
def strOr (a b : String) : String := if a = "" then b else a

/-- JavaScript `a?.f... || b` where `a` is an optional string. -/
def optStrOr (a : Option String) (b : String) : String :=
  match a with
  | some s => strOr s b
  | none => b

/- ===================== Zod issue rendering ===================== -/

/-- One zod validation issue: the path segments (already rendered as strings;
zod stringifies numeric segments when joining) and the issue message. -/
structure ZodIssue where
  path : List String
  message : String
deriving DecidableEq, Repr

/-- Per-issue rendering of `zodIssuesToStrings` in
`src/app/api/review/route.ts` lines 22 to 27 (the generate route repeats the
same function verbatim): a dotted path, or `body` when the path is empty,
then a colon and the message. -/
def zodIssueToString (issue : ZodIssue) : String :=
  let path :=
    if issue.path.length > 0 then String.intercalate "." issue.path else "body"
  path ++ ": " ++ issue.message

/-- `zodIssuesToStrings` of the route handlers: one rendered string per
issue. -/
def zodIssuesToStrings (issues : List ZodIssue) : List String :=
  issues.map zodIssueToString

/-- Per-issue rendering inside the schema-mismatch branch of
`geminiJsonRequest` (`src/lib/llm.ts` lines 176 to 182):
`issue.path.join(".") || "root"` then a colon and the message. -/
def geminiIssueToString (issue : ZodIssue) : String :=
  let joined := String.intercalate "." issue.path
  strOr joined "root" ++ ": " ++ issue.message

/-- Message of the error raised by `geminiJsonRequest` when the parsed model
output fails `schema.safeParse`: the per-issue renderings joined by a comma
and a space, behind a fixed prefix (`src/lib/llm.ts` lines 176 to 182). -/
def geminiSchemaMismatchMessage (issues : List ZodIssue) : String :=
  "Gemini output schema mismatch: " ++
    String.intercalate ", " (issues.map geminiIssueToString)

/- ===================== Review route: normalization ===================== -/

/-- `safeLineCount` (`src/app/api/review/route.ts` lines 43 to 46): normalize
`\r\n` to `\n`, then 0 for the empty string, else the number of
`\n`-delimited segments. -/
def safeLineCount (code : String) : Nat :=
  let normalized := replaceCrlf code.data
  if normalized = [] then 0 else (splitNewline normalized).length

/-- `extensionForLanguage` (`src/app/api/review/route.ts` lines 48 to 66). -/
def extensionForLanguage (language : String) : Option String :=
  let normalized := jsToLower (jsTrim language)
  if normalized = "typescript" ∨ normalized = "ts" then some "ts"
  else if normalized = "javascript" ∨ normalized = "js" then some "js"
  else if normalized = "python" ∨ normalized = "py" then some "py"
  else if normalized = "java" then some "java"
  else if normalized = "kotlin" ∨ normalized = "kt" then some "kt"
  else none

/-- `inferLanguageFromFilename` (`src/app/api/review/route.ts` lines 68
to 86). -/
def inferLanguageFromFilename (filename : String) : Option String :=
  let normalized := jsToLower (jsTrim filename)
  if jsEndsWith normalized ".ts" ∨ jsEndsWith normalized ".tsx" then
    some "typescript"
  else if jsEndsWith normalized ".js" ∨ jsEndsWith normalized ".jsx" then
    some "javascript"
  else if jsEndsWith normalized ".py" then some "python"
  else if jsEndsWith normalized ".java" then some "java"
  else if jsEndsWith normalized ".kt" then some "kotlin"
  else none

/-- A normalized review file (`NormalizedReviewFile` in
`src/app/api/review/route.ts` lines 15 to 20). -/
structure NormalizedReviewFile where
  filename : String
  language : String
  code : String
  lineCount : Nat
deriving DecidableEq, Repr

/-- `normalizeReviewFile` (`src/app/api/review/route.ts` lines 88 to 105):
default the trimmed filename to `snippet.txt`, resolve the language from the
trimmed preferred language, else from the filename, else `plaintext`, and
compute the line count of the untouched code. -/
def normalizeReviewFile (filename : String) (code : String)
    (preferredLanguage : Option String) : NormalizedReviewFile :=
  let normalizedFilename := strOr (jsTrim filename) "snippet.txt"
  let inferred := (inferLanguageFromFilename normalizedFilename).getD "plaintext"
  let normalizedLanguage := optStrOr (preferredLanguage.map jsTrim) inferred
  { filename := normalizedFilename
    language := normalizedLanguage
    code := code
    lineCount := safeLineCount code }

/- ===================== Review route: request and response ===================== -/

/-- Response language selector (`RESPONSE_LANGUAGES = ["ko", "en"]` in
`src/lib/schemas.ts`). -/
inductive ResponseLanguage where
  | ko
  | en
deriving DecidableEq, Repr

/-- Issue severity (`reviewIssueSchema` in `src/lib/schemas.ts`). -/
inductive Severity where
  | low
  | medium
  | high
deriving DecidableEq, Repr

/-- One review issue produced by the model (`reviewIssueSchema`). The `line`
field is an integer; the zod schema constrains it to be positive, which the
route re-checks when it validates the assembled response. -/
structure ReviewIssue where
  id : String
  severity : Severity
  title : String
  message : String
  line : Int
deriving DecidableEq, Repr

/-- Validated model output for a review (`reviewLlmOutputSchema`). -/
structure ReviewLlmOutput where
  summary : String
  issues : List ReviewIssue
  refactoredCode : String
  suggestedTests : List String
deriving DecidableEq, Repr

/-- One entry of the `files` array of a review request
(`reviewInputFileSchema`), after the zod parse (strings already trimmed by
the zod transforms). -/
structure ReviewRequestFile where
  filename : String
  code : String
  language : Option String
deriving DecidableEq, Repr

/-- A review request after `reviewRequestSchema.safeParse` succeeded
(`src/lib/schemas.ts`): optional trimmed inline fields plus the optional
files array. -/
structure ReviewRequest where
  code : Option String
  filename : Option String
  language : Option String
  files : Option (List ReviewRequestFile)
  responseLanguage : Option ResponseLanguage
deriving DecidableEq, Repr

/-- One file as handed to `provider.review` (`src/app/api/review/route.ts`
lines 180 to 184). -/
structure ReviewProviderFile where
  filename : String
  language : String
  code : String
deriving DecidableEq, Repr

/-- Argument of `provider.review` (the cancellation signal is modelled
separately, in the transport timing model below). -/
structure ReviewProviderArgs where
  files : List ReviewProviderFile
  responseLanguage : ResponseLanguage
deriving DecidableEq, Repr

/-- The `input` block echoed in a successful review response
(`reviewResponseSchema`). -/
structure ReviewResponseMeta where
  filename : String
  language : String
  responseLanguage : ResponseLanguage
  lineCount : Nat
  fileCount : Nat
  totalLineCount : Nat
deriving DecidableEq, Repr

/-- A successful review response (`reviewResponseSchema`); `ok` is the
literal `true` and `mode` the literal string `review`. -/
structure ReviewResponse where
  ok : Bool
  mode : String
  input : ReviewResponseMeta
  summary : String
  issues : List ReviewIssue
  refactoredCode : String
  suggestedTests : List String
deriving DecidableEq, Repr

/-- Outcome of a route handler: an error envelope
(`createErrorResponse(error, status, details)`) or a JSON success payload. -/
inductive ApiOutcome (α : Type) where
  | errorResponse (status : Nat) (error : String) (details : Option (List String))
  | jsonResponse (payload : α)
deriving DecidableEq, Repr

/-- `REVIEW_MAX_FILES` (`src/app/api/review/route.ts` line 12). -/
def REVIEW_MAX_FILES : Nat := 12

/-- `REVIEW_MAX_TOTAL_CHARS` (`src/app/api/review/route.ts` line 13). -/
def REVIEW_MAX_TOTAL_CHARS : Nat := 80000

/-- Uploaded files of the request, each normalized
(`src/app/api/review/route.ts` lines 136 to 138). -/
def reviewUploadedFiles (req : ReviewRequest) : List NormalizedReviewFile :=
  (req.files.getD []).map
    (fun file => normalizeReviewFile file.filename file.code file.language)

/-- The synthetic inline file (`src/app/api/review/route.ts` lines 139
to 150): built only when the inline `code` is present and truthy; its
filename falls back to `snippet.<ext>` from the requested language, else
`snippet.txt`. -/
def reviewInlineFile (req : ReviewRequest) : Option NormalizedReviewFile :=
  match req.code with
  | none => none
  | some inlineCode =>
    if inlineCode = "" then none
    else
      let requestedLanguage := req.language.map jsTrim
      let requestedFilename := req.filename.map jsTrim
      let fallbackExtension :=
        match requestedLanguage with
        | some l => if l = "" then none else extensionForLanguage l
        | none => none
      let fallbackName :=
        match fallbackExtension with
        | some ext => "snippet." ++ ext
        | none => "snippet.txt"
      let filename := optStrOr requestedFilename fallbackName
      some (normalizeReviewFile filename inlineCode requestedLanguage)

/-- `allFiles` (`src/app/api/review/route.ts` line 152): the uploaded files,
with the inline synthetic file appended when present. -/
def reviewAllFiles (req : ReviewRequest) : List NormalizedReviewFile :=
  match reviewInlineFile req with
  | some inlineFile => reviewUploadedFiles req ++ [inlineFile]
  | none => reviewUploadedFiles req

/-- `totalChars` (`src/app/api/review/route.ts` line 165): the reduce over
the code lengths of all files. -/
def reviewTotalChars (files : List NormalizedReviewFile) : Nat :=
  files.foldl (fun sum file => sum + file.code.length) 0

/-- `totalLineCount` (`src/app/api/review/route.ts` line 173): the reduce
over the line counts of all files. -/
def reviewTotalLineCount (files : List NormalizedReviewFile) : Nat :=
  files.foldl (fun sum file => sum + file.lineCount) 0

/-- Zod issues of `reviewResponseSchema.safeParse` on the assembled payload
(`src/app/api/review/route.ts` lines 189 to 204). Of the schema constraints,
only the positivity of each issue line and of the file count are falsifiable
for a payload the handler builds; every other field is correct by
construction. -/
def reviewResponseViolations (resp : ReviewResponse) : List ZodIssue :=
  (if resp.input.fileCount = 0 then
    [⟨["input", "fileCount"], "Number must be greater than 0"⟩]
  else []) ++
    ((List.range resp.issues.length).zip resp.issues).foldr
      (fun pair acc =>
        if pair.2.line ≤ 0 then
          ⟨["issues", toString pair.1, "line"],
            "Number must be greater than 0"⟩ :: acc
        else acc)
      []

/-- `POST` of `src/app/api/review/route.ts` (lines 118 to 220) after the zod
request parse succeeded, with the LLM provider abstracted as a function from
its argument to either a thrown error message or the validated model output.
Returns the HTTP outcome paired with the number of provider invocations. -/
def reviewPost (provider : ReviewProviderArgs → Except String ReviewLlmOutput)
    (req : ReviewRequest) : ApiOutcome ReviewResponse × Nat :=
  match reviewAllFiles req with
  | [] =>
    (.errorResponse 400 "Invalid request body"
      (some ["`code` or `files` is required"]), 0)
  | firstFile :: restFiles =>
    let allFiles := firstFile :: restFiles
    if allFiles.length > REVIEW_MAX_FILES then
      (.errorResponse 400 "Invalid request body"
        (some ["Too many files. Maximum is 12."]), 0)
    else if reviewTotalChars allFiles > REVIEW_MAX_TOTAL_CHARS then
      (.errorResponse 400 "Invalid request body"
        (some ["Total code size is too large. Maximum is 80000 characters."]), 0)
    else
      let primaryFile := (reviewInlineFile req).getD firstFile
      let responseLanguage := req.responseLanguage.getD .ko
      match provider
          { files := allFiles.map
              (fun file => ⟨file.filename, file.language, file.code⟩)
            responseLanguage := responseLanguage } with
      | .error message =>
        (.errorResponse 502 "LLM request failed" (some [message]), 1)
      | .ok parsed =>
        let payload : ReviewResponse :=
          { ok := true
            mode := "review"
            input :=
              { filename := primaryFile.filename
                language := primaryFile.language
                responseLanguage := responseLanguage
                lineCount := primaryFile.lineCount
                fileCount := allFiles.length
                totalLineCount := reviewTotalLineCount allFiles }
            summary := parsed.summary
            issues := parsed.issues
            refactoredCode := parsed.refactoredCode
            suggestedTests := parsed.suggestedTests }
        match reviewResponseViolations payload with
        | [] => (.jsonResponse payload, 1)
        | violations =>
          (.errorResponse 502 "LLM output validation failed"
            (some (zodIssuesToStrings violations)), 1)

/- ===================== Generate route ===================== -/

/-- Generation target language (`GENERATE_LANGUAGES` in
`src/lib/schemas.ts`). -/
inductive GenerateLanguage where
  | typescript
  | javascript
  | python
  | java
  | kotlin
deriving DecidableEq, Repr

/-- Generation style (`GENERATE_STYLES` in `src/lib/schemas.ts`). -/
inductive GenerateStyle where
  | clean
  | fast
  | explain
deriving DecidableEq, Repr

/-- Validated model output for a generation (`generateLlmOutputSchema`). -/
structure GenerateLlmOutput where
  summary : String
  code : String
  notes : List String
deriving DecidableEq, Repr

/-- A generate request after `generateRequestSchema.safeParse` succeeded:
trimmed non-empty prompt, optional enums. -/
structure GenerateRequest where
  prompt : String
  language : Option GenerateLanguage
  style : Option GenerateStyle
  responseLanguage : Option ResponseLanguage
deriving DecidableEq, Repr

/-- Argument of `provider.generate` (`src/app/api/generate/route.ts` lines 72
to 77). -/
structure GenerateProviderArgs where
  prompt : String
  language : GenerateLanguage
  style : GenerateStyle
  responseLanguage : ResponseLanguage
deriving DecidableEq, Repr

/-- The `input` block echoed in a successful generate response
(`generateResponseSchema`). -/
structure GenerateResponseMeta where
  language : GenerateLanguage
  style : GenerateStyle
  responseLanguage : ResponseLanguage
  promptLength : Nat
deriving DecidableEq, Repr

/-- A successful generate response (`generateResponseSchema`); `ok` is the
literal `true` and `mode` the literal string `generate`. -/
structure GenerateResponse where
  ok : Bool
  mode : String
  input : GenerateResponseMeta
  summary : String
  code : String
  notes : List String
deriving DecidableEq, Repr

/-- `POST` of `src/app/api/generate/route.ts` (lines 46 to 107) after the zod
request parse succeeded, with the provider abstracted as a function. The
`generateResponseSchema.safeParse` on the assembled payload has no
falsifiable constraint for a payload the handler builds (the prompt length is
a natural number and every enum is typed), so the success payload is returned
directly. Returns the HTTP outcome paired with the number of provider
invocations. -/
def generatePost
    (provider : GenerateProviderArgs → Except String GenerateLlmOutput)
    (req : GenerateRequest) : ApiOutcome GenerateResponse × Nat :=
  let language := req.language.getD .typescript
  let style := req.style.getD .clean
  let responseLanguage := req.responseLanguage.getD .ko
  match provider
      { prompt := req.prompt
        language := language
        style := style
        responseLanguage := responseLanguage } with
  | .error message =>
    (.errorResponse 502 "LLM request failed" (some [message]), 1)
  | .ok parsed =>
    (.jsonResponse
      { ok := true
        mode := "generate"
        input :=
          { language := language
            style := style
            responseLanguage := responseLanguage
            promptLength := req.prompt.length }
        summary := parsed.summary
        code := parsed.code
        notes := parsed.notes }, 1)

/- ===================== Retry and transport model ===================== -/

/-- Classification of a failed provider attempt. The kinds follow the error
taxonomy of the pipeline: transport timeout, HTTP status failure, generic
network failure, caller cancellation, malformed provider envelope, non-JSON
model output, and model output failing the expected schema. -/
inductive FailureKind where
  | timeout
  | httpStatus (status : Nat)
  | network
  | cancelled
  | providerEnvelope
  | nonJson
  | schemaMismatch
deriving DecidableEq, Repr

/-- Outcome of one logical provider attempt: the validated value, or a
classified failure carrying its message. -/
inductive Outcome (α : Type) where
  | ok (value : α)
  | fail (kind : FailureKind) (message : String)
deriving DecidableEq, Repr

/-- Modelled from the spec: the failure classification of the
Retry/Resilience Controller (spec section 4.4), whose current `llm.ts`
revision is not part of the source snapshot (the snapshot predates the retry
loop). Retryable: timeout, HTTP 429, HTTP at least 500, generic network
failure. Terminal: caller cancellation, any other HTTP status, a malformed
provider envelope, non-JSON output, and a schema mismatch. -/
def isRetryable : FailureKind → Bool
  | .timeout => true
  | .network => true
  | .httpStatus status => decide (status = 429 ∨ 500 ≤ status)
  | .cancelled => false
  | .providerEnvelope => false
  | .nonJson => false
  | .schemaMismatch => false

/-- Modelled from the spec: the fixed retry budget of 3 total attempts (spec
section 4.4). -/
def RETRY_MAX_ATTEMPTS : Nat := 3

/-- Modelled from the spec: the fixed 3000 ms inter-attempt delay, with no
backoff growth (spec section 4.4). -/
def RETRY_DELAY_MS : Nat := 3000

/-- Trace of a retry-controlled operation: the final outcome, the number of
provider calls issued, and the list of performed inter-attempt pauses in
milliseconds. -/
structure RetryResult (α : Type) where
  outcome : Outcome α
  calls : Nat
  waits : List Nat
deriving DecidableEq, Repr

/-- Modelled from the spec: the bounded retry loop of the Retry/Resilience
Controller (spec section 4.4). `attemptResult` gives the outcome of each
numbered attempt; `remaining` counts the attempts still in budget. A success
returns at once; a retryable failure with budget left pauses for the fixed
delay and re-issues; a terminal failure, or an exhausted budget, raises the
last encountered failure with its message preserved. -/
def retryGo (attemptResult : Nat → Outcome α) :
    Nat → Nat → RetryResult α
  | _, 0 => ⟨.fail .network "retry budget exhausted before any attempt", 0, []⟩
  | attempt, remaining + 1 =>
    match attemptResult attempt with
    | .ok value => ⟨.ok value, 1, []⟩
    | .fail kind message =>
      if isRetryable kind ∧ remaining ≠ 0 then
        let rest := retryGo attemptResult (attempt + 1) remaining
        ⟨rest.outcome, rest.calls + 1, RETRY_DELAY_MS :: rest.waits⟩
      else
        ⟨.fail kind message, 1, []⟩

/-- Modelled from the spec: one retry-controlled operation, starting at
attempt 1 with the full budget of `RETRY_MAX_ATTEMPTS`. -/
def runWithRetry (attemptResult : Nat → Outcome α) : RetryResult α :=
  retryGo attemptResult 1 RETRY_MAX_ATTEMPTS

/-- Modelled from the spec: the default hard transport timeout of 300
seconds (spec section 4.3). -/
def TRANSPORT_TIMEOUT_MS : Nat := 300000

/-- Message attached to a timeout-classified transport failure in the
model. -/
def timeoutMessage : String := "Gemini request timed out"

/-- Message attached to a caller-cancelled transport failure in the model. -/
def cancelledMessage : String := "Request cancelled by caller"

/-- Modelled from the spec: the timing behaviour of one Provider Transport
invocation (spec sections 4.3 and 5), with time in milliseconds from the
start of the call. Three events compete: the caller cancellation signal at
`cancelAtMs` (when armed), the hard timeout at `timeoutMs`, and the provider
HTTP outcome arriving at `responseAtMs`. Cancellation aborts the in-flight
call whenever it fires no later than the other two events (cancellation
always wins); otherwise a timeout firing strictly before the response aborts
the call with a timeout classification; otherwise the HTTP outcome stands. -/
def transportOutcome (cancelAtMs : Option Nat) (timeoutMs : Nat)
    (responseAtMs : Nat) (httpOutcome : Outcome α) : Outcome α :=
  match cancelAtMs with
  | some cancelAt =>
    if cancelAt ≤ timeoutMs ∧ cancelAt ≤ responseAtMs then
      .fail .cancelled cancelledMessage
    else if timeoutMs < responseAtMs then
      .fail .timeout timeoutMessage
    else httpOutcome
  | none =>
    if timeoutMs < responseAtMs then
      .fail .timeout timeoutMessage
    else httpOutcome

/- ===================== Thread store ===================== -/

/-- Workspace mode (`WorkspaceMode` in `src/components/home/types.ts`). -/
inductive WorkspaceMode where
  | review
  | generate
deriving DecidableEq, Repr

/-- Run lifecycle status (`ThreadRunStatus` in
`src/components/home/types.ts`). -/
inductive ThreadRunStatus where
  | running
  | success
  | failed
  | cancelled
deriving DecidableEq, Repr

/-- A stored run result (`ApiResult` in `src/components/home/types.ts`): a
review or a generate response. -/
inductive ApiResult where
  | review (response : ReviewResponse)
  | generate (response : GenerateResponse)
deriving DecidableEq, Repr

/-- One run of a thread (`ThreadRun` in `src/components/home/types.ts`). -/
structure ThreadRun where
  id : String
  mode : WorkspaceMode
  status : ThreadRunStatus
  createdAt : Nat
  updatedAt : Nat
  result : Option ApiResult
  errorMessage : Option String
deriving DecidableEq, Repr

/-- One selected review file of a thread (`SelectedReviewFile` in
`src/components/home/types.ts`). -/
structure SelectedReviewFile where
  id : String
  filename : String
  language : String
  code : String
  lineCount : Nat
deriving DecidableEq, Repr

/-- A thread snapshot (`ThreadSnapshot` in
`src/components/home/types.ts`). -/
structure ThreadSnapshot where
  id : String
  title : String
  mode : WorkspaceMode
  pinned : Bool
  updatedAt : Nat
  responseLanguage : ResponseLanguage
  reviewCode : String
  reviewLanguage : GenerateLanguage
  reviewFilename : String
  reviewFiles : List SelectedReviewFile
  generatePrompt : String
  generateLanguage : GenerateLanguage
  generateStyle : GenerateStyle
  runs : List ThreadRun
  activeRunId : Option String
deriving DecidableEq, Repr

/-- A row of the `threads` table (`ThreadRow` in `src/lib/thread-store.ts`).
The `review_files_json` column holds `JSON.stringify(thread.reviewFiles)`;
the serialization being injective and irrelevant to the storage logic, the
row carries the serialized payload itself. -/
structure ThreadRow where
  id : String
  title : String
  mode : WorkspaceMode
  pinned : Nat
  responseLanguage : ResponseLanguage
  reviewCode : String
  reviewLanguage : GenerateLanguage
  reviewFilename : String
  reviewFilesJson : List SelectedReviewFile
  generatePrompt : String
  generateLanguage : GenerateLanguage
  generateStyle : GenerateStyle
  activeRunId : Option String
  createdAt : Nat
  updatedAt : Nat
deriving DecidableEq, Repr

/-- A row of the `runs` table (`RunRow` in `src/lib/thread-store.ts`); the
`result_json` column likewise carries its payload. -/
structure RunRow where
  id : String
  threadId : String
  mode : WorkspaceMode
  status : ThreadRunStatus
  resultJson : Option ApiResult
  errorMessage : Option String
  createdAt : Nat
  updatedAt : Nat
deriving DecidableEq, Repr

/-- JavaScript `a || b` on numbers: 0 is the falsy case that occurs for the
timestamps the store feeds it. -/
def numOr (a b : Nat) : Nat := if a = 0 then b else a

/-- The `created_at` value inserted for a thread
(`src/lib/thread-store.ts` lines 289 to 292): the creation time of the last
run when runs exist, else `thread.updatedAt || now`. -/
def threadCreatedAt (now : Nat) (thread : ThreadSnapshot) : Nat :=
  match thread.runs.getLast? with
  | some lastRun => lastRun.createdAt
  | none => numOr thread.updatedAt now

/-- The `threads` row inserted for a snapshot (`insertThread.run(...)`,
`src/lib/thread-store.ts` lines 294 to 310). -/
def toThreadRow (now : Nat) (thread : ThreadSnapshot) : ThreadRow :=
  { id := thread.id
    title := thread.title
    mode := thread.mode
    pinned := if thread.pinned then 1 else 0
    responseLanguage := thread.responseLanguage
    reviewCode := thread.reviewCode
    reviewLanguage := thread.reviewLanguage
    reviewFilename := thread.reviewFilename
    reviewFilesJson := thread.reviewFiles
    generatePrompt := thread.generatePrompt
    generateLanguage := thread.generateLanguage
    generateStyle := thread.generateStyle
    activeRunId := thread.activeRunId
    createdAt := threadCreatedAt now thread
    updatedAt := numOr thread.updatedAt now }

/-- The `runs` row inserted for a run (`insertRun.run(...)`,
`src/lib/thread-store.ts` lines 312 to 323). -/
def toRunRow (threadId : String) (run : ThreadRun) : RunRow :=
  { id := run.id
    threadId := threadId
    mode := run.mode
    status := run.status
    resultJson := run.result
    errorMessage := run.errorMessage
    createdAt := run.createdAt
    updatedAt := run.updatedAt }

/-- Committed content of the SQLite store: the two tables written by
`replaceStoredThreads`. -/
structure DbState where
  threads : List ThreadRow
  runs : List RunRow
deriving DecidableEq, Repr

/-- The SQL statements `replaceStoredThreads` executes inside its
transaction. -/
inductive SqlStmt where
  | deleteRuns
  | deleteThreads
  | insertThread (row : ThreadRow)
  | insertRun (row : RunRow)
deriving DecidableEq, Repr

/-- Effect of one statement on the staged table content. -/
def stmtEffect (stmt : SqlStmt) (db : DbState) : DbState :=
  match stmt with
  | .deleteRuns => { db with runs := [] }
  | .deleteThreads => { db with threads := [] }
  | .insertThread row => { db with threads := db.threads ++ [row] }
  | .insertRun row => { db with runs := db.runs ++ [row] }

/-- The per-thread insert statements of the loop in
`src/lib/thread-store.ts` lines 288 to 324: the thread row, then one run row
per run, in order. -/
def threadInsertScript (now : Nat) (threads : List ThreadSnapshot) :
    List SqlStmt :=
  threads.flatMap (fun thread =>
    .insertThread (toThreadRow now thread) ::
      thread.runs.map (fun run => .insertRun (toRunRow thread.id run)))

/-- The full statement sequence of the transaction body
(`src/lib/thread-store.ts` lines 248 to 324): delete all runs, delete all
threads, then reinsert everything. -/
def replaceScript (now : Nat) (threads : List ThreadSnapshot) : List SqlStmt :=
  .deleteRuns :: .deleteThreads :: threadInsertScript now threads

/-- Sequential execution of the statements against the staged content.
`failAt` models the SQLite driver: statement `index` (0-based, in execution
order) throws the given message, or runs normally. -/
def execStmts (failAt : Nat → Option String) :
    Nat → List SqlStmt → DbState → Except String DbState
  | _, [], db => .ok db
  | index, stmt :: rest, db =>
    match failAt index with
    | some errorMessage => .error errorMessage
    | none => execStmts failAt (index + 1) rest (stmtEffect stmt db)

/-- `replaceStoredThreads` (`src/lib/thread-store.ts` lines 241 to 331):
`BEGIN`, the delete-and-reinsert script, `COMMIT`; on any thrown statement,
`ROLLBACK` and rethrow. SQLite transaction semantics are modelled by staged
changes becoming the committed state only at `COMMIT`, while `ROLLBACK`
restores the pre-transaction state. Returns the thrown error (if any) paired
with the committed state after the call. -/
def replaceStoredThreads (failAt : Nat → Option String) (now : Nat)
    (db : DbState) (threads : List ThreadSnapshot) :
    Except String Unit × DbState :=
  match execStmts failAt 0 (replaceScript now threads) db with
  | .ok staged => (.ok (), staged)
  | .error errorMessage => (.error errorMessage, db)

/- ===================== Helper lemmas ===================== -/

/-- A left fold adding a projection is the starting value plus the sum of the
mapped list. -/
theorem foldl_add_map {β : Type} (g : β → Nat) (l : List β) (n : Nat) :
    l.foldl (fun sum x => sum + g x) n = n + (l.map g).sum := by
  induction l generalizing n with
  | nil => simp
  | cons a tl ih => simp [ih, Nat.add_assoc]

/-- The total line count is the sum of the per-file line counts. -/
theorem reviewTotalLineCount_eq (files : List NormalizedReviewFile) :
    reviewTotalLineCount files = (files.map (fun file => file.lineCount)).sum :=
  (foldl_add_map (fun file : NormalizedReviewFile => file.lineCount)
    files 0).trans (Nat.zero_add _)

/-- The total character count is the sum of the per-file code lengths. -/
theorem reviewTotalChars_eq (files : List NormalizedReviewFile) :
    reviewTotalChars files = (files.map (fun file => file.code.length)).sum :=
  (foldl_add_map (fun file : NormalizedReviewFile => file.code.length)
    files 0).trans (Nat.zero_add _)

/-- Every uploaded file carries the line count of its own code. -/
theorem mem_reviewUploadedFiles_lineCount {req : ReviewRequest}
    {file : NormalizedReviewFile} (h : file ∈ reviewUploadedFiles req) :
    file.lineCount = safeLineCount file.code := by
  unfold reviewUploadedFiles at h
  rcases List.mem_map.mp h with ⟨raw, _, rfl⟩
  rfl

/-- The inline synthetic file carries the line count of its own code. -/
theorem reviewInlineFile_lineCount {req : ReviewRequest}
    {file : NormalizedReviewFile} (h : reviewInlineFile req = some file) :
    file.lineCount = safeLineCount file.code := by
  unfold reviewInlineFile at h
  cases hc : req.code with
  | none => rw [hc] at h; cases h
  | some c =>
    rw [hc] at h
    by_cases hce : c = ""
    · simp [hce] at h
    · simp only [hce, if_false] at h
      rw [← Option.some_inj.mp h]
      rfl

/-- Every file of `allFiles` carries the line count of its own code. -/
theorem reviewAllFiles_lineCount {req : ReviewRequest}
    {file : NormalizedReviewFile} (h : file ∈ reviewAllFiles req) :
    file.lineCount = safeLineCount file.code := by
  unfold reviewAllFiles at h
  cases hi : reviewInlineFile req with
  | none => rw [hi] at h; exact mem_reviewUploadedFiles_lineCount h
  | some inlineFile =>
    rw [hi] at h
    rcases List.mem_append.mp h with h1 | h2
    · exact mem_reviewUploadedFiles_lineCount h1
    · rw [List.mem_singleton.mp h2]
      exact reviewInlineFile_lineCount hi

/-- The retry loop never issues more calls than its remaining budget. -/
theorem retryGo_calls_le {α : Type} (f : Nat → Outcome α)
    (attempt remaining : Nat) :
    (retryGo f attempt remaining).calls ≤ remaining := by
  induction remaining generalizing attempt with
  | zero => simp [retryGo]
  | succ rem ih =>
    unfold retryGo
    cases f attempt with
    | ok value => exact Nat.succ_le_succ (Nat.zero_le rem)
    | fail kind message =>
      dsimp only
      by_cases hc : isRetryable kind = true ∧ rem ≠ 0
      · rw [if_pos hc]
        exact Nat.succ_le_succ (ih (attempt + 1))
      · rw [if_neg hc]
        exact Nat.succ_le_succ (Nat.zero_le rem)

/-- Every pause the retry loop performs is the fixed delay. -/
theorem retryGo_waits_fixed {α : Type} (f : Nat → Outcome α)
    (attempt remaining : Nat) :
    ∀ w ∈ (retryGo f attempt remaining).waits, w = RETRY_DELAY_MS := by
  induction remaining generalizing attempt with
  | zero => simp [retryGo]
  | succ rem ih =>
    unfold retryGo
    cases f attempt with
    | ok value => simp
    | fail kind message =>
      dsimp only
      by_cases hc : isRetryable kind = true ∧ rem ≠ 0
      · rw [if_pos hc]
        intro w hw
        rcases List.mem_cons.mp hw with h1 | h2
        · exact h1
        · exact ih (attempt + 1) w h2
      · rw [if_neg hc]
        intro w hw
        simp at hw

/- ===================== Claim C1 ===================== -/

/-- C1: the retry controller re-issues the transport call up to 3 total
attempts with a fixed 3000 ms pause and no backoff growth; a provider failing
with a 429-classified error on attempts 1 and 2 and succeeding on attempt 3
yields the success with exactly 3 calls, two fixed pauses, and no 4th call,
and no run ever exceeds 3 calls or pauses a different amount. -/
theorem retry_fixed_budget_c1 {α : Type} (f : Nat → Outcome α) (value : α)
    (m1 m2 : String)
    (h1 : f 1 = .fail (.httpStatus 429) m1)
    (h2 : f 2 = .fail (.httpStatus 429) m2)
    (h3 : f 3 = .ok value) :
    runWithRetry f = ⟨.ok value, 3, [3000, 3000]⟩ ∧
    (∀ g : Nat → Outcome α, (runWithRetry g).calls ≤ 3 ∧
      ∀ w ∈ (runWithRetry g).waits, w = 3000) := by
  constructor
  · simp [runWithRetry, RETRY_MAX_ATTEMPTS, RETRY_DELAY_MS, retryGo,
      h1, h2, h3, isRetryable]
  · intro g
    exact ⟨retryGo_calls_le g 1 3, retryGo_waits_fixed g 1 3⟩

/-- Concrete provider for the C1 witness: HTTP 429 on the first two attempts,
success on the third. -/
def c1Attempts : Nat → Outcome GenerateLlmOutput := fun attempt =>
  if attempt = 3 then .ok ⟨"ok", "code", []⟩
  else .fail (.httpStatus 429) "Gemini API error: HTTP 429"

/-- C1 witness: the theorem applied to the concrete 429/429/success
provider. -/
theorem retry_fixed_budget_c1_witness :
    runWithRetry c1Attempts = ⟨.ok ⟨"ok", "code", []⟩, 3, [3000, 3000]⟩ :=
  (retry_fixed_budget_c1 c1Attempts ⟨"ok", "code", []⟩
    "Gemini API error: HTTP 429" "Gemini API error: HTTP 429"
    rfl rfl rfl).1

/- ===================== Claim C2 ===================== -/

/-- C2: a provider response that would arrive after the hard timeout (default
300 seconds) is aborted by the timeout, and the outcome is classified as a
retryable timeout failure. -/
theorem transport_timeout_c2 {α : Type} (responseAtMs : Nat)
    (httpOutcome : Outcome α)
    (h : TRANSPORT_TIMEOUT_MS < responseAtMs) :
    transportOutcome none TRANSPORT_TIMEOUT_MS responseAtMs httpOutcome =
      .fail .timeout timeoutMessage ∧
    isRetryable .timeout = true ∧
    TRANSPORT_TIMEOUT_MS = 300 * 1000 := by
  refine ⟨?_, rfl, rfl⟩
  simp [transportOutcome, h]

/-- C2 witness: the theorem applied to a response arriving one millisecond
after the 300 second deadline. -/
theorem transport_timeout_c2_witness :
    TRANSPORT_TIMEOUT_MS < 300001 ∧
    transportOutcome none TRANSPORT_TIMEOUT_MS 300001
        (Outcome.ok (⟨"late", "late", []⟩ : GenerateLlmOutput)) =
      .fail .timeout timeoutMessage :=
  ⟨by decide,
    (transport_timeout_c2 300001 (.ok ⟨"late", "late", []⟩) (by decide)).1⟩

/- ===================== Claim C3 ===================== -/

/-- C3: when the caller cancellation signal fires before or during the
provider call (no later than both the timeout and the response), the
in-flight call aborts with a caller-cancelled outcome, the classification is
not retryable, and the whole retry-controlled operation terminates after that
single attempt with zero further attempts and no pauses. -/
theorem cancellation_c3 {α : Type} (cancelAtMs timeoutMs responseAtMs : Nat)
    (httpOutcome : Outcome α)
    (h1 : cancelAtMs ≤ timeoutMs) (h2 : cancelAtMs ≤ responseAtMs) :
    transportOutcome (some cancelAtMs) timeoutMs responseAtMs httpOutcome =
      .fail .cancelled cancelledMessage ∧
    isRetryable .cancelled = false ∧
    runWithRetry (fun _ =>
        transportOutcome (some cancelAtMs) timeoutMs responseAtMs httpOutcome) =
      ⟨.fail .cancelled cancelledMessage, 1, []⟩ := by
  have ht : transportOutcome (some cancelAtMs) timeoutMs responseAtMs
      httpOutcome = .fail .cancelled cancelledMessage := by
    simp [transportOutcome, h1, h2]
  refine ⟨ht, rfl, ?_⟩
  simp [runWithRetry, RETRY_MAX_ATTEMPTS, retryGo, ht, isRetryable]

/-- C3 witness: the theorem applied to a cancellation firing at 50 ms into a
call whose timeout is the default and whose response would arrive at
70 ms. -/
theorem cancellation_c3_witness :
    runWithRetry (fun _ =>
        transportOutcome (some 50) TRANSPORT_TIMEOUT_MS 70
          (Outcome.ok (⟨"s", "c", []⟩ : GenerateLlmOutput))) =
      ⟨.fail .cancelled cancelledMessage, 1, []⟩ :=
  (cancellation_c3 50 TRANSPORT_TIMEOUT_MS 70 (.ok ⟨"s", "c", []⟩)
    (by decide) (by decide)).2.2

/- ===================== Claim C6 ===================== -/

/-- C6: a schema-validation failure of valid-JSON model output is terminal:
the retry-controlled operation issues exactly one provider call, performs no
pause, and raises the error whose message enumerates every violated field as
a dotted path (or `root`) with its message, joined by commas. -/
theorem schema_mismatch_terminal_c6 {α : Type} (issues : List ZodIssue)
    (attempts : Nat → Outcome α)
    (h : attempts 1 =
      .fail .schemaMismatch (geminiSchemaMismatchMessage issues)) :
    runWithRetry attempts =
      ⟨.fail .schemaMismatch (geminiSchemaMismatchMessage issues), 1, []⟩ ∧
    isRetryable .schemaMismatch = false ∧
    geminiSchemaMismatchMessage issues =
      "Gemini output schema mismatch: " ++
        String.intercalate ", " (issues.map geminiIssueToString) ∧
    (issues.map geminiIssueToString).length = issues.length ∧
    ∀ issue ∈ issues, geminiIssueToString issue =
      strOr (String.intercalate "." issue.path) "root" ++ ": " ++
        issue.message := by
  refine ⟨?_, rfl, rfl, List.length_map _ _, fun issue _ => rfl⟩
  simp [runWithRetry, RETRY_MAX_ATTEMPTS, retryGo, h, isRetryable]

/-- Concrete issue list for the C6 witness. -/
def c6Issues : List ZodIssue :=
  [⟨["summary"], "Required"⟩, ⟨["issues", "0", "line"],
    "Number must be greater than 0"⟩]

/-- Concrete one-shot provider for the C6 witness: the first attempt raises
the schema-mismatch error. -/
def c6Attempts : Nat → Outcome ReviewLlmOutput := fun _ =>
  .fail .schemaMismatch (geminiSchemaMismatchMessage c6Issues)

/-- C6 witness: the theorem applied to the concrete schema-mismatch
provider. -/
theorem schema_mismatch_terminal_c6_witness :
    runWithRetry c6Attempts =
      ⟨.fail .schemaMismatch (geminiSchemaMismatchMessage c6Issues), 1, []⟩ ∧
    geminiSchemaMismatchMessage c6Issues =
      "Gemini output schema mismatch: summary: Required, issues.0.line: Number must be greater than 0" :=
  ⟨(schema_mismatch_terminal_c6 c6Issues c6Attempts rfl).1, by decide⟩

/- ===================== Review route success shape ===================== -/

/-- A successful review response always has the shape the handler assembles:
the metadata block echoes the primary file (the inline synthetic file when
present, else the first of `allFiles`), the defaulted response language, the
file count and the total line count. -/
theorem reviewPost_success_meta
    {provider : ReviewProviderArgs → Except String ReviewLlmOutput}
    {req : ReviewRequest} {resp : ReviewResponse} {calls : Nat}
    (h : reviewPost provider req = (.jsonResponse resp, calls)) :
    ∃ firstFile restFiles, reviewAllFiles req = firstFile :: restFiles ∧
      resp.input =
        { filename := ((reviewInlineFile req).getD firstFile).filename
          language := ((reviewInlineFile req).getD firstFile).language
          responseLanguage := req.responseLanguage.getD .ko
          lineCount := ((reviewInlineFile req).getD firstFile).lineCount
          fileCount := (firstFile :: restFiles).length
          totalLineCount := reviewTotalLineCount (firstFile :: restFiles) } := by
  unfold reviewPost at h
  cases hall : reviewAllFiles req with
  | nil =>
    rw [hall] at h
    exact absurd h (by simp)
  | cons firstFile restFiles =>
    rw [hall] at h
    dsimp only at h
    refine ⟨firstFile, restFiles, rfl, ?_⟩
    split at h
    · exact absurd h (by simp)
    split at h
    · exact absurd h (by simp)
    split at h
    · exact absurd h (by simp)
    split at h
    · have hresp := (Prod.mk.injEq _ _ _ _).mp h
      have hpayload := hresp.1
      rw [← ((ApiOutcome.jsonResponse.injEq _ _).mp hpayload)]
    · exact absurd h (by simp)

/- ===================== Claim C4 ===================== -/

/-- C4: a successful review response reports as `input.totalLineCount` the
sum over all files of that file's line count, each line count being
`safeLineCount` of the file's code (the number of `\n`-delimited segments
after normalizing `\r\n` to `\n`), and `safeLineCount` of the empty string is
0. -/
theorem review_total_line_count_c4
    (provider : ReviewProviderArgs → Except String ReviewLlmOutput)
    (req : ReviewRequest) (resp : ReviewResponse) (calls : Nat)
    (h : reviewPost provider req = (.jsonResponse resp, calls)) :
    resp.input.totalLineCount =
      ((reviewAllFiles req).map (fun file => safeLineCount file.code)).sum ∧
    (∀ file ∈ reviewAllFiles req, file.lineCount = safeLineCount file.code) ∧
    safeLineCount "" = 0 := by
  refine ⟨?_, fun file hf => reviewAllFiles_lineCount hf, rfl⟩
  obtain ⟨firstFile, restFiles, hall, hinput⟩ := reviewPost_success_meta h
  have htotal : resp.input.totalLineCount =
      reviewTotalLineCount (firstFile :: restFiles) := by rw [hinput]
  rw [htotal, reviewTotalLineCount_eq, hall]
  exact congrArg List.sum (List.map_congr_left fun file hf =>
    reviewAllFiles_lineCount (by rw [hall]; exact hf))

/-- Concrete request for the C4 witness: two uploaded files, no inline
code. -/
def c4Request : ReviewRequest :=
  ⟨none, none, none,
    some [⟨"a.ts", "line1\nline2", none⟩, ⟨"b.py", "x", some "python"⟩],
    some .en⟩

/-- Concrete provider stub for the C4 witness. -/
def c4Provider : ReviewProviderArgs → Except String ReviewLlmOutput :=
  fun _ => .ok ⟨"fine", [], "ref", []⟩

/-- Expected successful response for the C4 witness. -/
def c4Response : ReviewResponse :=
  ⟨true, "review", ⟨"a.ts", "typescript", .en, 2, 2, 3⟩, "fine", [], "ref", []⟩

/-- C4 witness: the theorem applied to the concrete two-file request. -/
theorem review_total_line_count_c4_witness :
    reviewPost c4Provider c4Request = (.jsonResponse c4Response, 1) ∧
    c4Response.input.totalLineCount =
      ((reviewAllFiles c4Request).map (fun file => safeLineCount file.code)).sum :=
  ⟨by decide,
    (review_total_line_count_c4 c4Provider c4Request c4Response 1
      (by decide)).1⟩

/- ===================== Claim C5 ===================== -/

/-- C5: a review request whose normalized file list exceeds 12 files, or
whose aggregate code character count exceeds 80000, is answered with the
400-class request-validation error envelope and the provider is never
invoked (zero provider calls). -/
theorem review_limits_c5
    (provider : ReviewProviderArgs → Except String ReviewLlmOutput)
    (req : ReviewRequest)
    (h : REVIEW_MAX_FILES < (reviewAllFiles req).length ∨
      REVIEW_MAX_TOTAL_CHARS < reviewTotalChars (reviewAllFiles req)) :
    ∃ details, reviewPost provider req =
      (.errorResponse 400 "Invalid request body" (some details), 0) := by
  unfold reviewPost
  cases hall : reviewAllFiles req with
  | nil =>
    rw [hall] at h
    simp [reviewTotalChars, REVIEW_MAX_FILES, REVIEW_MAX_TOTAL_CHARS] at h
  | cons firstFile restFiles =>
    rw [hall] at h
    dsimp only
    by_cases h1 : (firstFile :: restFiles).length > REVIEW_MAX_FILES
    · exact ⟨["Too many files. Maximum is 12."], by rw [if_pos h1]⟩
    · have h2 : reviewTotalChars (firstFile :: restFiles) >
          REVIEW_MAX_TOTAL_CHARS := by
        rcases h with hl | hr
        · exact absurd hl h1
        · exact hr
      refine ⟨["Total code size is too large. Maximum is 80000 characters."],
        ?_⟩
      rw [if_neg h1, if_pos h2]

/-- Concrete request for the C5 witness: 13 uploaded files. -/
def c5Request : ReviewRequest :=
  ⟨none, none, none, some (List.replicate 13 ⟨"a.ts", "x", none⟩), none⟩

/-- Concrete provider stub for the C5 witness. -/
def c5Provider : ReviewProviderArgs → Except String ReviewLlmOutput :=
  fun _ => .ok ⟨"s", [], "r", []⟩

/-- C5 witness: the theorem applied to the 13-file request. -/
theorem review_limits_c5_witness :
    ∃ details, reviewPost c5Provider c5Request =
      (.errorResponse 400 "Invalid request body" (some details), 0) :=
  review_limits_c5 c5Provider c5Request (Or.inl (by decide))

/- ===================== Claim C9 ===================== -/

/-- C9: when a review request carries both non-empty inline code and a
non-empty files array, the inline code becomes a synthetic file appended
after the uploaded files (so it counts toward the 12-file maximum applied to
`allFiles`), while the echoed metadata of a successful response (filename,
language, line count) comes from that inline synthetic file, not from the
first uploaded file. -/
theorem review_inline_metadata_c9
    (provider : ReviewProviderArgs → Except String ReviewLlmOutput)
    (req : ReviewRequest) (c : String) (fs : List ReviewRequestFile)
    (hcode : req.code = some c) (hne : c ≠ "") (hfiles : req.files = some fs)
    (_hfs : fs ≠ []) :
    ∃ inlineFile, reviewInlineFile req = some inlineFile ∧
      reviewAllFiles req =
        fs.map (fun file =>
          normalizeReviewFile file.filename file.code file.language)
          ++ [inlineFile] ∧
      (reviewAllFiles req).length = fs.length + 1 ∧
      ∀ resp calls, reviewPost provider req = (.jsonResponse resp, calls) →
        resp.input.filename = inlineFile.filename ∧
        resp.input.language = inlineFile.language ∧
        resp.input.lineCount = inlineFile.lineCount := by
  cases hi : reviewInlineFile req with
  | none =>
    exfalso
    unfold reviewInlineFile at hi
    rw [hcode] at hi
    dsimp only at hi
    rw [if_neg hne] at hi
    cases hi
  | some inlineFile =>
    have hshape : reviewAllFiles req =
        fs.map (fun file =>
          normalizeReviewFile file.filename file.code file.language)
          ++ [inlineFile] := by
      unfold reviewAllFiles
      rw [hi]
      unfold reviewUploadedFiles
      rw [hfiles]
      rfl
    refine ⟨inlineFile, rfl, hshape, ?_, ?_⟩
    · rw [hshape]
      simp
    · intro resp calls h
      obtain ⟨firstFile, restFiles, hall, hinput⟩ := reviewPost_success_meta h
      refine ⟨?_, ?_, ?_⟩ <;> rw [hinput, hi] <;> rfl

/-- Concrete request for the C9 witness: one uploaded file plus inline
code. -/
def c9Request : ReviewRequest :=
  ⟨some "print(1)", some "inline.py", none, some [⟨"a.ts", "x", none⟩], none⟩

/-- Concrete provider stub for the C9 witness. -/
def c9Provider : ReviewProviderArgs → Except String ReviewLlmOutput :=
  fun _ => .ok ⟨"s", [], "r", []⟩

/-- C9 witness: the theorem applied to the concrete dual-form request. -/
theorem review_inline_metadata_c9_witness :
    ∃ inlineFile, reviewInlineFile c9Request = some inlineFile ∧
      reviewAllFiles c9Request =
        ([⟨"a.ts", "x", none⟩] : List ReviewRequestFile).map (fun file =>
          normalizeReviewFile file.filename file.code file.language)
          ++ [inlineFile] ∧
      (reviewAllFiles c9Request).length = 1 + 1 ∧
      ∀ resp calls, reviewPost c9Provider c9Request =
          (.jsonResponse resp, calls) →
        resp.input.filename = inlineFile.filename ∧
        resp.input.language = inlineFile.language ∧
        resp.input.lineCount = inlineFile.lineCount :=
  review_inline_metadata_c9 c9Provider c9Request "print(1)"
    [⟨"a.ts", "x", none⟩] rfl (by decide) rfl (by decide)

/- ===================== Claim C7 ===================== -/

/-- Concrete generate request of the end-to-end scenario: prompt
`reverse a string`, language `python`, style `clean`. -/
def c7Request : GenerateRequest :=
  ⟨"reverse a string", some .python, some .clean, none⟩

/-- Provider stub of the end-to-end scenario. -/
def c7Provider : GenerateProviderArgs → Except String GenerateLlmOutput :=
  fun _ => .ok ⟨"ok", "def f(s): return s[::-1]", []⟩

/-- Response the handler actually produces for the scenario: the prompt
`reverse a string` has 16 characters, so `promptLength` is 16. -/
def c7Response : GenerateResponse :=
  ⟨true, "generate", ⟨.python, .clean, .ko, 16⟩, "ok",
    "def f(s): return s[::-1]", []⟩

/-- C7 counterexample: the scenario does not return `promptLength = 18` as
claimed; the handler computes the length of the 16-character prompt. -/
theorem generate_scenario_c7_counterexample :
    (generatePost c7Provider c7Request).1 ≠
      .jsonResponse
        ⟨true, "generate", ⟨.python, .clean, .ko, 18⟩, "ok",
          "def f(s): return s[::-1]", []⟩ := by
  decide

/-- C7 (amended): the scenario
`generate(prompt = "reverse a string", language = python, style = clean)`
against the stub returning summary `ok`, the reversal code and empty notes
yields the success envelope with mode `generate`, echoed language, style,
defaulted response language `ko`, `promptLength = 16`, and the stub fields,
in exactly one provider call. -/
theorem generate_scenario_c7 :
    generatePost c7Provider c7Request = (.jsonResponse c7Response, 1) := by
  decide

/- ===================== Claim C8 ===================== -/

/-- C8 counterexample: at the request boundary an empty-path violation is
rendered with the `body` prefix, not the `root` prefix the claim states. -/
theorem zod_details_c8_counterexample :
    zodIssuesToStrings [⟨[], "Expected object, received string"⟩] ≠
      ["root: Expected object, received string"] := by
  decide

/-- C8 (amended): every violation is rendered as the dotted path, a colon
and the message; when the path is empty, the request boundary renders the
`body` prefix while the model-output boundary renders the `root` prefix. -/
theorem zod_details_c8 (issues : List ZodIssue) :
    (zodIssuesToStrings issues).length = issues.length ∧
    (∀ issue ∈ issues, issue.path ≠ [] →
      zodIssueToString issue =
        String.intercalate "." issue.path ++ ": " ++ issue.message) ∧
    (∀ issue ∈ issues, issue.path = [] →
      zodIssueToString issue = "body" ++ ": " ++ issue.message ∧
      geminiIssueToString issue = "root" ++ ": " ++ issue.message) ∧
    (∀ issue ∈ issues, String.intercalate "." issue.path ≠ "" →
      geminiIssueToString issue =
        String.intercalate "." issue.path ++ ": " ++ issue.message) := by
  refine ⟨List.length_map _ _, fun issue _ hne => ?_, fun issue _ hempty => ?_,
    fun issue _ hne => ?_⟩
  · unfold zodIssueToString
    rw [if_pos (List.length_pos.mpr hne)]
  · constructor
    · unfold zodIssueToString
      rw [hempty]
      rfl
    · unfold geminiIssueToString
      rw [hempty]
      rfl
  · unfold geminiIssueToString
    dsimp only
    unfold strOr
    rw [if_neg hne]

/-- C8 witness: the amended theorem applied to one empty-path issue and one
issue at path `issues.0.line`. -/
theorem zod_details_c8_witness :
    zodIssueToString ⟨[], "Required"⟩ = "body" ++ ": " ++ "Required" ∧
    geminiIssueToString ⟨[], "Required"⟩ = "root" ++ ": " ++ "Required" ∧
    zodIssueToString ⟨["issues", "0", "line"], "Required"⟩ =
      String.intercalate "." ["issues", "0", "line"] ++ ": " ++ "Required" :=
  ⟨((zod_details_c8 [⟨[], "Required"⟩]).2.2.1 ⟨[], "Required"⟩
      (List.mem_singleton.mpr rfl) rfl).1,
    ((zod_details_c8 [⟨[], "Required"⟩]).2.2.1 ⟨[], "Required"⟩
      (List.mem_singleton.mpr rfl) rfl).2,
    (zod_details_c8 [⟨["issues", "0", "line"], "Required"⟩]).2.1
      ⟨["issues", "0", "line"], "Required"⟩ (List.mem_singleton.mpr rfl)
      (by decide)⟩

/- ===================== Claim C10 ===================== -/

/-- A successful statement run computes the left fold of the statement
effects. -/
theorem execStmts_ok_eq (failAt : Nat → Option String) :
    ∀ (stmts : List SqlStmt) (n : Nat) (db out : DbState),
      execStmts failAt n stmts db = .ok out →
      out = stmts.foldl (fun acc stmt => stmtEffect stmt acc) db := by
  intro stmts
  induction stmts with
  | nil =>
    intro n db out h
    unfold execStmts at h
    injection h with h1
    exact h1.symm
  | cons stmt rest ih =>
    intro n db out h
    unfold execStmts at h
    cases hf : failAt n with
    | some msg =>
      rw [hf] at h
      exact absurd h (by simp)
    | none =>
      rw [hf] at h
      exact ih (n + 1) (stmtEffect stmt db) out h

/-- Folding the run-insert statements appends the mapped run rows. -/
theorem applyRunInserts (threadId : String) (runs : List ThreadRun) :
    ∀ db : DbState,
      (runs.map (fun run => SqlStmt.insertRun (toRunRow threadId run))).foldl
        (fun acc stmt => stmtEffect stmt acc) db =
      ⟨db.threads, db.runs ++ runs.map (toRunRow threadId)⟩ := by
  induction runs with
  | nil =>
    intro db
    cases db
    simp
  | cons run rest ih =>
    intro db
    simp only [List.map_cons, List.foldl_cons]
    rw [show stmtEffect (SqlStmt.insertRun (toRunRow threadId run)) db =
        (⟨db.threads, db.runs ++ [toRunRow threadId run]⟩ : DbState) from rfl]
    rw [ih]
    simp [List.append_assoc]

/-- Folding the per-thread insert script appends the mapped thread rows and
all mapped run rows. -/
theorem applyThreadInserts (now : Nat) (threads : List ThreadSnapshot) :
    ∀ db : DbState,
      (threadInsertScript now threads).foldl
        (fun acc stmt => stmtEffect stmt acc) db =
      ⟨db.threads ++ threads.map (toThreadRow now),
        db.runs ++ threads.flatMap
          (fun thread => thread.runs.map (toRunRow thread.id))⟩ := by
  induction threads with
  | nil =>
    intro db
    cases db
    simp [threadInsertScript]
  | cons thread rest ih =>
    intro db
    simp only [threadInsertScript] at ih ⊢
    simp only [List.flatMap_cons, List.cons_append, List.foldl_cons,
      List.foldl_append]
    rw [show stmtEffect (SqlStmt.insertThread (toThreadRow now thread)) db =
        (⟨db.threads ++ [toThreadRow now thread], db.runs⟩ : DbState) from rfl]
    rw [applyRunInserts]
    rw [show (⟨db.threads ++ [toThreadRow now thread],
        db.runs ++ thread.runs.map (toRunRow thread.id)⟩ : DbState).threads =
        db.threads ++ [toThreadRow now thread] from rfl]
    rw [ih]
    simp [List.append_assoc]

/-- C10: `replaceStoredThreads` is atomic. When any statement of the
transaction throws, the transaction is rolled back, the error is rethrown,
and the committed tables are exactly what they were before the call; when no
statement throws, the committed tables are the full delete-and-reinsert of
the given threads and their runs. -/
theorem replace_stored_threads_atomic_c10 (failAt : Nat → Option String)
    (now : Nat) (db : DbState) (threads : List ThreadSnapshot) :
    (∀ e, (replaceStoredThreads failAt now db threads).1 = .error e →
      (replaceStoredThreads failAt now db threads).2 = db) ∧
    ((replaceStoredThreads failAt now db threads).1 = .ok () →
      (replaceStoredThreads failAt now db threads).2 =
        ⟨threads.map (toThreadRow now),
          threads.flatMap
            (fun thread => thread.runs.map (toRunRow thread.id))⟩) := by
  unfold replaceStoredThreads
  cases hex : execStmts failAt 0 (replaceScript now threads) db with
  | error e =>
    dsimp only
    exact ⟨fun _ _ => rfl, fun h => absurd h (by simp)⟩
  | ok staged =>
    dsimp only
    refine ⟨fun e h => absurd h (by simp), fun _ => ?_⟩
    have hst := execStmts_ok_eq failAt (replaceScript now threads) 0 db
      staged hex
    rw [hst]
    simp only [replaceScript, List.foldl_cons]
    rw [show stmtEffect SqlStmt.deleteThreads (stmtEffect SqlStmt.deleteRuns db)
        = (⟨[], []⟩ : DbState) from rfl]
    rw [applyThreadInserts]
    simp

/-- Concrete run for the C10 witness. -/
def c10Run : ThreadRun := ⟨"r1", .review, .success, 1, 2, none, none⟩

/-- Concrete thread snapshot for the C10 witness. -/
def c10Thread : ThreadSnapshot :=
  ⟨"t1", "Thread", .review, false, 3, .ko, "x", .typescript, "a.ts", [],
    "", .typescript, .clean, [c10Run], none⟩

/-- Concrete pre-existing committed state for the C10 witness. -/
def c10Db : DbState :=
  ⟨[toThreadRow 0 c10Thread], [toRunRow "t1" c10Run]⟩

/-- C10 witness: the theorem applied to a driver whose very first statement
throws; the committed state stays the pre-call state. -/
theorem replace_stored_threads_atomic_c10_witness :
    (replaceStoredThreads (fun _ => some "SQLITE_BUSY") 5 c10Db
      [c10Thread]).2 = c10Db :=
  (replace_stored_threads_atomic_c10 (fun _ => some "SQLITE_BUSY") 5 c10Db
    [c10Thread]).1 "SQLITE_BUSY" rfl
